import Mathlib

/-!
# Robust Command Execution Engine — formal model

Shallow embedding of the robust external-command execution layer of
`src/index.js` (the NGINX-tools MCP server): the three process-runner
strategies `executeDockerCommand` (streaming `spawn`),
`executeDockerCommandAlt` (buffered `exec`), `executeDockerCommandSync`
(blocking `execSync`), the result normalizer `createResult`, and the
cascade controller `executeDockerCommandRobust`.

The behaviour of the operating system / external binary is made explicit:
* the streaming strategy is driven by a list of events (stdout/stderr data
  chunks, a `close` with an optional exit code, a spawn `error`, the firing
  of the manually armed timeout timer) folded through a state machine that
  mirrors the JavaScript callback structure, including the
  resolve-at-most-once promise semantics and `clearTimeout` calls;
* the buffered and synchronous strategies are driven by an abstract
  success/failure behaviour carrying the fields that Node's `exec` /
  `execSync` errors carry (`stdout`, `stderr`, `message`, `code`/`status`).

JavaScript's `||` (falsy coalescing) is modelled explicitly, since the
source leans on it (`code || 0`, `error.stderr || error.message`, …) and
its treatment of `0`, `""` and `null` is load-bearing.
-/

namespace NginxMcp

/-- JavaScript `a || b` for an optional string `a`: `null`/`undefined` and
the empty string are falsy. -/
def jsStrOr (a : Option String) (b : String) : String :=
  match a with
  | none => b
  | some s => if s = "" then b else s

/-- JavaScript `a || b` for an optional integer `a`: `null`/`undefined`
and `0` are falsy. -/
def jsIntOr (a : Option Int) (b : Int) : Int :=
  match a with
  | none => b
  | some n => if n = 0 then b else n

/-- The `debug` object attached to every result by `createResult`, plus the
keys that `executeDockerCommandRobust` adds by object spread.  A JavaScript
object key that is absent reads as `undefined`, which is falsy, so the
absent key is modelled as `none` / `false`. -/
structure Debug where
  command : String
  method : String
  error : Option String := none
  timeout : Bool := false
  timestamp : Nat := 0
  fallbackUsed : Bool := false
  primaryError : Option String := none
  secondaryError : Option String := none
  deriving Repr, DecidableEq

/-- The normalized result record (`createResult`'s shape): the engine's
`ExecutionOutcome`/`CascadeResult` value. -/
structure ExecResult where
  stdout : String
  stderr : String
  code : Int
  success : Bool
  debug : Debug
  deriving Repr, DecidableEq

/-- `createResult` from `src/index.js` (lines 37–46):
`{ stdout, stderr, code: code || 0, success: code === 0, debug: { command, method,
...(error && \x7b error \x7d), ...(timeout && \x7b timeout \x7d), timestamp } }`.
`code` may be `null` (a `close` event after a signal kill), hence `Option Int`;
`code || 0` coalesces both `null` and `0` to `0`, while `code === 0` is a
strict comparison with the raw value. -/
def createResult (stdout stderr : String) (code : Option Int)
    (method command : String) (error : Option String := none)
    (timeout : Bool := false) (ts : Nat := 0) : ExecResult :=
  { stdout := stdout
    stderr := stderr
    code := jsIntOr code 0
    success := code == some 0
    debug :=
      { command := command
        method := method
        error := match error with | none => none | some s => if s = "" then none else some s
        timeout := timeout
        timestamp := ts } }

/-- Process-wide configuration read from `config.json` at startup
(`config.nginx.host`, `config.nginx.port`, `config.project.directory`).
The file carries no command-timeout entry. -/
structure Config where
  nginxHost : String
  nginxPort : String
  projectDirectory : String
  deriving Repr, DecidableEq

/-- Process-wide read-only globals: the loaded config, the optional
`PROJECT_DIR` environment override, and the process environment (the basis
of `DOCKER_ENV`). -/
structure Globals where
  config : Config
  envProjectDir : Option String := none
  env : List (String × String) := []
  deriving Repr, DecidableEq

/-- `const PROJECT_DIR = process.env.PROJECT_DIR || config.project.directory`. -/
def PROJECT_DIR (g : Globals) : String :=
  jsStrOr g.envProjectDir g.config.projectDirectory

/-- `const DOCKER_ENV = { ...process.env, PATH: process.env.PATH }` — the
process environment passed unchanged (overwriting `PATH` with itself). -/
def DOCKER_ENV (g : Globals) : List (String × String) := g.env

/-- `const TIMEOUT = 15000` (line 27): the per-command timeout in
milliseconds, a hard constant. -/
def TIMEOUT : Nat := 15000

/-- The shell command string every strategy builds:
`docker args.join(' ')` (with the explicit `docker` binary). -/
def commandString (args : List String) : String :=
  "docker " ++ String.intercalate " " args

/-! ## Streaming strategy (`executeDockerCommand`, lines 48–72)

The `spawn`-based strategy is an event loop: stdout/stderr `data`
callbacks append to buffers, an armed `setTimeout` timer may fire, and the
`close`/`error` callbacks call `clearTimeout` and resolve.  A promise
resolves at most once; later `resolve` calls are no-ops.  We fold the
callback structure over an explicit list of events. -/

/-- One event delivered to the streaming strategy's callbacks. -/
inductive StreamEvent where
  | dataOut (chunk : String)
  | dataErr (chunk : String)
  | close (code : Option Int)
  | spawnErr (message : String)
  | timerFire
  deriving Repr, DecidableEq

/-- Terminating events: those whose callback calls `resolve`. -/
def StreamEvent.isTerminator : StreamEvent → Bool
  | .dataOut _ => false
  | .dataErr _ => false
  | .close _ => true
  | .spawnErr _ => true
  | .timerFire => true

/-- State of one streaming execution: the two string buffers, whether the
timer is still pending, the resolved value of the promise (at most one),
whether the timer was still pending at the instant `resolve` first ran,
and whether `child.kill('SIGTERM')` was sent. -/
structure StreamState where
  sout : String := ""
  serr : String := ""
  timerArmed : Bool := true
  resolved : Option ExecResult := none
  armedAtResolve : Option Bool := none
  killed : Bool := false
  deriving Repr, DecidableEq

/-- `resolve(r)`: a promise resolves at most once. Records whether the
timer was pending at that instant. -/
def resolveWith (st : StreamState) (r : ExecResult) : StreamState :=
  match st.resolved with
  | some _ => st
  | none => { st with resolved := some r, armedAtResolve := some st.timerArmed }

/-- One callback firing of `executeDockerCommand`'s promise executor.
- `data` events append to the buffers (they keep appending even after
  resolution, as the handlers stay attached);
- `close` runs `clearTimeout(timeout)` then resolves
  `createResult(stdout, stderr, code, 'spawn', command)`;
- `error` runs `clearTimeout(timeout)` then resolves
  `createResult('', error.message, 1, 'spawn', command, error.message)`;
- the timer, when it is still pending, fires once: it is then no longer
  pending, sends `SIGTERM`, and resolves
  `createResult('', 'Command timed out after 15 seconds', 124, 'spawn',
  command, null, true)`. A cleared or already-fired timer cannot fire. -/
def streamStep (cmd : String) (ts : Nat) (st : StreamState) :
    StreamEvent → StreamState
  | .dataOut s => { st with sout := st.sout ++ s }
  | .dataErr s => { st with serr := st.serr ++ s }
  | .close c =>
      resolveWith { st with timerArmed := false }
        (createResult st.sout st.serr c "spawn" cmd none false ts)
  | .spawnErr m =>
      resolveWith { st with timerArmed := false }
        (createResult "" m (some 1) "spawn" cmd (some m) false ts)
  | .timerFire =>
      if st.timerArmed then
        resolveWith { st with timerArmed := false, killed := true }
          (createResult "" "Command timed out after 15 seconds" (some 124)
            "spawn" cmd none true ts)
      else st

/-- Fold a whole event list from a given state. -/
def streamRunFrom (cmd : String) (ts : Nat) (st : StreamState) :
    List StreamEvent → StreamState
  | [] => st
  | e :: es => streamRunFrom cmd ts (streamStep cmd ts st e) es

/-- Run a streaming execution of `docker args` from the initial state
(empty buffers, timer armed, promise pending). -/
def streamRun (g : Globals) (args : List String) (events : List StreamEvent)
    (ts : Nat) : StreamState :=
  streamRunFrom (commandString args) ts {} events

/-- `executeDockerCommand(args)` (lines 48–72): the value the returned
promise settles on, given the events the OS delivers; `none` when the
promise never resolves (no terminating event occurred). -/
def executeDockerCommand (g : Globals) (args : List String)
    (events : List StreamEvent) (ts : Nat) : Option ExecResult :=
  (streamRun g args events ts).resolved

/-! ## Buffered strategy (`executeDockerCommandAlt`, lines 74–82) -/

/-- The error object Node's promisified `exec` rejects with: partial
`stdout`/`stderr` captured so far, the `message`, and `code` (the exit
code, or `null` when the process was killed, e.g. by `exec`'s own
timeout). -/
structure ExecError where
  message : String
  stdout : Option String := none
  stderr : Option String := none
  code : Option Int := none
  deriving Repr, DecidableEq

/-- What `await execAsync(command, …)` does on this call: fulfil with
`{ stdout, stderr }` or reject with an `ExecError`. -/
inductive ExecBehavior where
  | ok (stdout stderr : String)
  | fail (e : ExecError)
  deriving Repr, DecidableEq

/-- `executeDockerCommandAlt(args)`: on fulfilment
`createResult(stdout, stderr, 0, 'exec', command)`; on rejection
`createResult(error.stdout || '', error.stderr || error.message,
error.code || 1, 'exec', command, error.message)`. -/
def executeDockerCommandAlt (g : Globals) (args : List String)
    (b : ExecBehavior) (ts : Nat) : ExecResult :=
  match b with
  | .ok stdout stderr =>
      createResult stdout stderr (some 0) "exec" (commandString args) none false ts
  | .fail e =>
      createResult (jsStrOr e.stdout "") (jsStrOr e.stderr e.message)
        (some (jsIntOr e.code 1)) "exec" (commandString args)
        (some e.message) false ts

/-! ## Synchronous strategy (`executeDockerCommandSync`, lines 84–92) -/

/-- The error `execSync` throws: `message`, captured `stderr`, and
`status` (the exit code, or `null` when killed/not run). -/
structure SyncError where
  message : String
  stderr : Option String := none
  status : Option Int := none
  deriving Repr, DecidableEq

/-- What `execSync(command, …)` does on this call: return the decoded
stdout text, or throw a `SyncError`. -/
inductive SyncBehavior where
  | ok (stdout : String)
  | fail (e : SyncError)
  deriving Repr, DecidableEq

/-- `executeDockerCommandSync(args)`: on return
`createResult(result, '', 0, 'execSync', command)`; on throw
`createResult('', error.stderr || error.message, error.status || 1,
'execSync', command, error.message)`. -/
def executeDockerCommandSync (g : Globals) (args : List String)
    (b : SyncBehavior) (ts : Nat) : ExecResult :=
  match b with
  | .ok stdout =>
      createResult stdout "" (some 0) "execSync" (commandString args) none false ts
  | .fail e =>
      createResult "" (jsStrOr e.stderr e.message)
        (some (jsIntOr e.status 1)) "execSync" (commandString args)
        (some e.message) false ts

/-! ## Cascade controller (`executeDockerCommandRobust`, lines 94–105) -/

/-- The environment's behaviour for one full cascade invocation: what the
OS does for each strategy, should it be attempted. -/
structure CascadeBehavior where
  streamEvents : List StreamEvent
  buffered : ExecBehavior
  sync : SyncBehavior
  deriving Repr, DecidableEq

/-- The wall-clock instants read by each strategy's `createResult`. -/
structure Clock where
  t1 : Nat := 0
  t2 : Nat := 0
  t3 : Nat := 0
  t4 : Nat := 0
  deriving Repr, DecidableEq

/-- `executeDockerCommandRobust(args)`: try streaming; on success return
its result unchanged; else try buffered; on success return it with
`fallbackUsed`/`primaryError` spread into `debug`; else run synchronous;
on success return it with `fallbackUsed`/`primaryError`/`secondaryError`;
else a synthetic all-failed result.  `none` when the streaming promise
never resolves (then the `await` never completes). -/
def executeDockerCommandRobust (g : Globals) (args : List String)
    (b : CascadeBehavior) (clk : Clock) : Option ExecResult :=
  match executeDockerCommand g args b.streamEvents clk.t1 with
  | none => none
  | some spawnResult =>
    if spawnResult.success then some spawnResult
    else
      let execResult := executeDockerCommandAlt g args b.buffered clk.t2
      if execResult.success then
        some { execResult with debug :=
          { execResult.debug with
            fallbackUsed := true
            primaryError := some spawnResult.stderr } }
      else
        let syncResult := executeDockerCommandSync g args b.sync clk.t3
        if syncResult.success then
          some { syncResult with debug :=
            { syncResult.debug with
              fallbackUsed := true
              primaryError := some spawnResult.stderr
              secondaryError := some execResult.stderr } }
        else
          some (createResult ""
            ("All execution methods failed. Last error: " ++ syncResult.stderr)
            (some 1) "all_failed" (commandString args) none false clk.t4)

/-! ## Instrumentation: which child-process invocations happen -/

/-- One invocation of a child-process API, with the options the source
passes (`cwd: PROJECT_DIR`, `env: DOCKER_ENV`, the 15-second timeout —
manual timer for `spawn`, `timeout` option for `exec`/`execSync`). -/
structure Invocation where
  method : String
  argv : List String
  cwd : String
  env : List (String × String)
  timeoutMs : Nat
  deriving Repr, DecidableEq

/-- The invocation `executeDockerCommand` makes:
`spawn('docker', args, { cwd: PROJECT_DIR, env: DOCKER_ENV, … })` with the
manually armed `setTimeout(…, TIMEOUT)`. -/
def streamingInvocation (g : Globals) (args : List String) : Invocation :=
  { method := "spawn", argv := args, cwd := PROJECT_DIR g,
    env := DOCKER_ENV g, timeoutMs := TIMEOUT }

/-- The invocation `executeDockerCommandAlt` makes:
`execAsync(command, { cwd: PROJECT_DIR, timeout: TIMEOUT, env: DOCKER_ENV })`. -/
def bufferedInvocation (g : Globals) (args : List String) : Invocation :=
  { method := "exec", argv := args, cwd := PROJECT_DIR g,
    env := DOCKER_ENV g, timeoutMs := TIMEOUT }

/-- The invocation `executeDockerCommandSync` makes:
`execSync(command, { cwd: PROJECT_DIR, encoding: 'utf8', timeout: TIMEOUT,
env: DOCKER_ENV })`. -/
def syncInvocation (g : Globals) (args : List String) : Invocation :=
  { method := "execSync", argv := args, cwd := PROJECT_DIR g,
    env := DOCKER_ENV g, timeoutMs := TIMEOUT }

/-- The sequence of child-process invocations one
`executeDockerCommandRobust(args)` call performs, in order, mirroring its
control flow: streaming always; buffered only after a streaming failure;
synchronous only after both failed. -/
def robustTrace (g : Globals) (args : List String) (b : CascadeBehavior)
    (clk : Clock) : List Invocation :=
  match executeDockerCommand g args b.streamEvents clk.t1 with
  | none => [streamingInvocation g args]
  | some spawnResult =>
    if spawnResult.success then [streamingInvocation g args]
    else
      let execResult := executeDockerCommandAlt g args b.buffered clk.t2
      if execResult.success then
        [streamingInvocation g args, bufferedInvocation g args]
      else
        [streamingInvocation g args, bufferedInvocation g args,
          syncInvocation g args]

/-- The cascade-level provenance list the spec calls `priorErrors`: the
`primaryError`/`secondaryError` diagnostics spread into `debug`, in
attempt order (an absent key contributes nothing). -/
def priorErrors (r : ExecResult) : List String :=
  r.debug.primaryError.toList ++ r.debug.secondaryError.toList

/-- A well-formed engine result: produced by `createResult`, its `success`
flag only holds with the `0` success sentinel stored, its strategy tag is
one of the four the engine uses, and the `timedOut` marker only appears
with the conventional `124` timeout code. -/
def wellFormedResult (r : ExecResult) : Prop :=
  (r.success = true → r.code = 0) ∧
  (r.debug.method = "spawn" ∨ r.debug.method = "exec" ∨
    r.debug.method = "execSync" ∨ r.debug.method = "all_failed") ∧
  (r.debug.timeout = true → r.code = 124)

/-! ## Basic lemmas -/

theorem createResult_success_iff (o e : String) (c : Option Int)
    (m cm : String) (er : Option String) (t : Bool) (ts : Nat) :
    (createResult o e c m cm er t ts).success = true ↔ c = some 0 := by
  simp [createResult]

theorem createResult_success_code (o e : String) (c : Option Int)
    (m cm : String) (er : Option String) (t : Bool) (ts : Nat)
    (h : (createResult o e c m cm er t ts).success = true) :
    (createResult o e c m cm er t ts).code = 0 := by
  have hc : c = some 0 := (createResult_success_iff o e c m cm er t ts).mp h
  simp [createResult, hc, jsIntOr]

/-- Results a streaming run can resolve with: well formed, tagged
`spawn`, with none of the cascade-level provenance keys set. -/
def streamProduced (r : ExecResult) : Prop :=
  wellFormedResult r ∧ r.debug.method = "spawn" ∧
  r.debug.fallbackUsed = false ∧ r.debug.primaryError = none ∧
  r.debug.secondaryError = none

theorem streamStep_produced (cmd : String) (ts : Nat) (st : StreamState)
    (e : StreamEvent)
    (h : ∀ r, st.resolved = some r → streamProduced r) :
    ∀ r, (streamStep cmd ts st e).resolved = some r → streamProduced r := by
  intro r hr
  cases e with
  | dataOut s => exact h r (by simpa [streamStep] using hr)
  | dataErr s => exact h r (by simpa [streamStep] using hr)
  | close c =>
      simp only [streamStep, resolveWith] at hr
      cases hst : st.resolved with
      | some r' =>
          have hrr : r' = r := by rw [hst] at hr; simpa [hst] using hr
          exact hrr ▸ h r' hst
      | none =>
          rw [hst] at hr
          simp only [Option.some.injEq] at hr
          subst hr
          refine ⟨⟨createResult_success_code _ _ _ _ _ _ _ _, ?_, ?_⟩, ?_, ?_, ?_, ?_⟩ <;>
            simp [createResult]
  | spawnErr m =>
      simp only [streamStep, resolveWith] at hr
      cases hst : st.resolved with
      | some r' =>
          have hrr : r' = r := by rw [hst] at hr; simpa [hst] using hr
          exact hrr ▸ h r' hst
      | none =>
          rw [hst] at hr
          simp only [Option.some.injEq] at hr
          subst hr
          refine ⟨⟨createResult_success_code _ _ _ _ _ _ _ _, ?_, ?_⟩, ?_, ?_, ?_, ?_⟩ <;>
            simp [createResult, jsIntOr]
  | timerFire =>
      by_cases ha : st.timerArmed
      · simp only [streamStep, ha, if_true, resolveWith] at hr
        cases hst : st.resolved with
        | some r' =>
          have hrr : r' = r := by rw [hst] at hr; simpa [hst] using hr
          exact hrr ▸ h r' hst
        | none =>
            rw [hst] at hr
            simp only [Option.some.injEq] at hr
            subst hr
            refine ⟨⟨createResult_success_code _ _ _ _ _ _ _ _, ?_, ?_⟩, ?_, ?_, ?_, ?_⟩ <;>
              simp [createResult, jsIntOr]
      · simp only [streamStep, ha, if_false] at hr
        exact h r hr

theorem streamRunFrom_produced (cmd : String) (ts : Nat) :
    ∀ (evts : List StreamEvent) (st : StreamState),
      (∀ r, st.resolved = some r → streamProduced r) →
      ∀ r, (streamRunFrom cmd ts st evts).resolved = some r → streamProduced r := by
  intro evts
  induction evts with
  | nil => intro st h r hr; exact h r hr
  | cons e es ih =>
      intro st h r hr
      exact ih (streamStep cmd ts st e) (streamStep_produced cmd ts st e h) r hr

/-- Every value the streaming strategy's promise resolves with satisfies
the streaming invariant. -/
theorem executeDockerCommand_produced (g : Globals) (args : List String)
    (events : List StreamEvent) (ts : Nat) (r : ExecResult)
    (h : executeDockerCommand g args events ts = some r) : streamProduced r := by
  exact streamRunFrom_produced (commandString args) ts events {}
    (by intro r' hr'; simp at hr') r h

/-- Once the promise has resolved, later events cannot change its value. -/
theorem streamStep_resolved_mono (cmd : String) (ts : Nat) (st : StreamState)
    (e : StreamEvent) (r : ExecResult) (h : st.resolved = some r) :
    (streamStep cmd ts st e).resolved = some r := by
  cases e with
  | dataOut s => simpa [streamStep]
  | dataErr s => simpa [streamStep]
  | close c => simp [streamStep, resolveWith, h]
  | spawnErr m => simp [streamStep, resolveWith, h]
  | timerFire =>
      by_cases ha : st.timerArmed
      · simp [streamStep, ha, resolveWith, h]
      · simp [streamStep, ha, h]

theorem streamRunFrom_resolved_mono (cmd : String) (ts : Nat) :
    ∀ (evts : List StreamEvent) (st : StreamState) (r : ExecResult),
      st.resolved = some r →
      (streamRunFrom cmd ts st evts).resolved = some r := by
  intro evts
  induction evts with
  | nil => intro st r h; exact h
  | cons e es ih =>
      intro st r h
      exact ih _ r (streamStep_resolved_mono cmd ts st e r h)

/-- Processing only non-terminating (data) events touches nothing but the
buffers: the timer stays as it was, the promise stays pending, no kill is
sent. -/
theorem streamRunFrom_data (cmd : String) (ts : Nat) :
    ∀ (pre : List StreamEvent) (st : StreamState),
      (∀ e ∈ pre, e.isTerminator = false) →
      (streamRunFrom cmd ts st pre).timerArmed = st.timerArmed ∧
      (streamRunFrom cmd ts st pre).resolved = st.resolved ∧
      (streamRunFrom cmd ts st pre).killed = st.killed := by
  intro pre
  induction pre with
  | nil => intro st _; exact ⟨rfl, rfl, rfl⟩
  | cons e es ih =>
      intro st h
      have he : e.isTerminator = false := h e (by simp)
      have hes : ∀ e' ∈ es, e'.isTerminator = false := by
        intro e' he'; exact h e' (by simp [he'])
      cases e with
      | dataOut s => simpa [streamRunFrom, streamStep] using ih _ hes
      | dataErr s => simpa [streamRunFrom, streamStep] using ih _ hes
      | close c => simp [StreamEvent.isTerminator] at he
      | spawnErr m => simp [StreamEvent.isTerminator] at he
      | timerFire => simp [StreamEvent.isTerminator] at he

/-- The timer-lifecycle invariant: whenever the promise has resolved, the
timer was no longer pending at the instant of resolution, and is no longer
pending now (it was cleared by the `close`/`error` handler, or had already
fired). -/
def timerInv (st : StreamState) : Prop :=
  st.resolved.isSome = true →
  st.armedAtResolve = some false ∧ st.timerArmed = false

theorem streamStep_timerInv (cmd : String) (ts : Nat) (st : StreamState)
    (e : StreamEvent) (h : timerInv st) : timerInv (streamStep cmd ts st e) := by
  cases e with
  | dataOut s =>
      intro hr
      simp only [streamStep] at hr ⊢
      exact h hr
  | dataErr s =>
      intro hr
      simp only [streamStep] at hr ⊢
      exact h hr
  | close c =>
      intro _
      simp only [streamStep, resolveWith]
      cases hst : st.resolved with
      | some r' =>
          have hh := h (by simp [hst])
          simp [hh.1]
      | none => simp
  | spawnErr m =>
      intro _
      simp only [streamStep, resolveWith]
      cases hst : st.resolved with
      | some r' =>
          have hh := h (by simp [hst])
          simp [hh.1]
      | none => simp
  | timerFire =>
      by_cases ha : st.timerArmed
      · intro _
        simp only [streamStep, ha, if_true, resolveWith]
        cases hst : st.resolved with
        | some r' =>
            have := h (by simp [hst])
            exact absurd this.2 (by simp [ha])
        | none => simp
      · intro hr
        simp only [streamStep, ha, if_false] at hr ⊢
        exact h hr

theorem streamRunFrom_timerInv (cmd : String) (ts : Nat) :
    ∀ (evts : List StreamEvent) (st : StreamState),
      timerInv st → timerInv (streamRunFrom cmd ts st evts) := by
  intro evts
  induction evts with
  | nil => intro st h; exact h
  | cons e es ih =>
      intro st h
      exact ih _ (streamStep_timerInv cmd ts st e h)

/-- Sending `SIGTERM` is never undone by later events. -/
theorem streamStep_killed_mono (cmd : String) (ts : Nat) (st : StreamState)
    (e : StreamEvent) (h : st.killed = true) :
    (streamStep cmd ts st e).killed = true := by
  cases e with
  | dataOut s => simpa [streamStep]
  | dataErr s => simpa [streamStep]
  | close c => cases hst : st.resolved <;> simp [streamStep, resolveWith, hst, h]
  | spawnErr m => cases hst : st.resolved <;> simp [streamStep, resolveWith, hst, h]
  | timerFire =>
      by_cases ha : st.timerArmed
      · cases hst : st.resolved <;> simp [streamStep, ha, resolveWith, hst, h]
      · simpa [streamStep, ha]

theorem streamRunFrom_killed_mono (cmd : String) (ts : Nat) :
    ∀ (evts : List StreamEvent) (st : StreamState), st.killed = true →
      (streamRunFrom cmd ts st evts).killed = true := by
  intro evts
  induction evts with
  | nil => intro st h; exact h
  | cons e es ih =>
      intro st h
      exact ih _ (streamStep_killed_mono cmd ts st e h)

/-- If the delivered events contain a terminating one, the promise
resolves (from the initial armed, pending state). -/
theorem streamRunFrom_resolves (cmd : String) (ts : Nat) :
    ∀ (evts : List StreamEvent) (st : StreamState),
      st.resolved = none → st.timerArmed = true →
      evts.any StreamEvent.isTerminator = true →
      ((streamRunFrom cmd ts st evts).resolved).isSome = true := by
  intro evts
  induction evts with
  | nil => intro st _ _ h; simp at h
  | cons e es ih =>
      intro st hres harm hany
      cases e with
      | dataOut s =>
          refine ih _ ?_ ?_ ?_
          · simpa [streamStep]
          · simpa [streamStep]
          · simpa [StreamEvent.isTerminator] using hany
      | dataErr s =>
          refine ih _ ?_ ?_ ?_
          · simpa [streamStep]
          · simpa [streamStep]
          · simpa [StreamEvent.isTerminator] using hany
      | close c =>
          have : (streamStep cmd ts st (.close c)).resolved =
              some (createResult st.sout st.serr c "spawn" cmd none false ts) := by
            simp [streamStep, resolveWith, hres]
          rw [streamRunFrom, streamRunFrom_resolved_mono cmd ts es _ _ this]
          rfl
      | spawnErr m =>
          have : (streamStep cmd ts st (.spawnErr m)).resolved =
              some (createResult "" m (some 1) "spawn" cmd (some m) false ts) := by
            simp [streamStep, resolveWith, hres]
          rw [streamRunFrom, streamRunFrom_resolved_mono cmd ts es _ _ this]
          rfl
      | timerFire =>
          have : (streamStep cmd ts st .timerFire).resolved =
              some (createResult "" "Command timed out after 15 seconds" (some 124)
                "spawn" cmd none true ts) := by
            simp [streamStep, harm, resolveWith, hres]
          rw [streamRunFrom, streamRunFrom_resolved_mono cmd ts es _ _ this]
          rfl

theorem jsIntOr_default_one_ne_zero (c : Option Int) : jsIntOr c 1 ≠ 0 := by
  cases c with
  | none => simp [jsIntOr]
  | some n => simp only [jsIntOr]; by_cases h : n = 0 <;> simp [h]

/-- The buffered strategy always returns a well-formed outcome. -/
theorem executeDockerCommandAlt_wellFormed (g : Globals) (args : List String)
    (b : ExecBehavior) (ts : Nat) :
    wellFormedResult (executeDockerCommandAlt g args b ts) := by
  cases b with
  | ok o e =>
      refine ⟨createResult_success_code _ _ _ _ _ _ _ _, ?_, ?_⟩ <;>
        simp [executeDockerCommandAlt, createResult]
  | fail e =>
      refine ⟨createResult_success_code _ _ _ _ _ _ _ _, ?_, ?_⟩ <;>
        simp [executeDockerCommandAlt, createResult]

/-- The synchronous strategy always returns a well-formed outcome. -/
theorem executeDockerCommandSync_wellFormed (g : Globals) (args : List String)
    (b : SyncBehavior) (ts : Nat) :
    wellFormedResult (executeDockerCommandSync g args b ts) := by
  cases b with
  | ok o =>
      refine ⟨createResult_success_code _ _ _ _ _ _ _ _, ?_, ?_⟩ <;>
        simp [executeDockerCommandSync, createResult]
  | fail e =>
      refine ⟨createResult_success_code _ _ _ _ _ _ _ _, ?_, ?_⟩ <;>
        simp [executeDockerCommandSync, createResult]

/-! ## Cascade case analysis -/

theorem robust_streaming_case (g : Globals) (args : List String)
    (b : CascadeBehavior) (clk : Clock) (sr : ExecResult)
    (h : executeDockerCommand g args b.streamEvents clk.t1 = some sr)
    (hs : sr.success = true) :
    executeDockerCommandRobust g args b clk = some sr ∧
    robustTrace g args b clk = [streamingInvocation g args] := by
  constructor <;> simp [executeDockerCommandRobust, robustTrace, h, hs]

theorem robust_buffered_case (g : Globals) (args : List String)
    (b : CascadeBehavior) (clk : Clock) (sr : ExecResult)
    (h : executeDockerCommand g args b.streamEvents clk.t1 = some sr)
    (hs : sr.success = false)
    (he : (executeDockerCommandAlt g args b.buffered clk.t2).success = true) :
    executeDockerCommandRobust g args b clk =
      some { executeDockerCommandAlt g args b.buffered clk.t2 with debug :=
        { (executeDockerCommandAlt g args b.buffered clk.t2).debug with
          fallbackUsed := true
          primaryError := some sr.stderr } } ∧
    robustTrace g args b clk =
      [streamingInvocation g args, bufferedInvocation g args] := by
  constructor <;> simp [executeDockerCommandRobust, robustTrace, h, hs, he]

theorem robust_sync_case (g : Globals) (args : List String)
    (b : CascadeBehavior) (clk : Clock) (sr : ExecResult)
    (h : executeDockerCommand g args b.streamEvents clk.t1 = some sr)
    (hs : sr.success = false)
    (he : (executeDockerCommandAlt g args b.buffered clk.t2).success = false)
    (hy : (executeDockerCommandSync g args b.sync clk.t3).success = true) :
    executeDockerCommandRobust g args b clk =
      some { executeDockerCommandSync g args b.sync clk.t3 with debug :=
        { (executeDockerCommandSync g args b.sync clk.t3).debug with
          fallbackUsed := true
          primaryError := some sr.stderr
          secondaryError := some (executeDockerCommandAlt g args b.buffered clk.t2).stderr } } ∧
    robustTrace g args b clk =
      [streamingInvocation g args, bufferedInvocation g args,
        syncInvocation g args] := by
  constructor <;> simp [executeDockerCommandRobust, robustTrace, h, hs, he, hy]

theorem robust_allfailed_case (g : Globals) (args : List String)
    (b : CascadeBehavior) (clk : Clock) (sr : ExecResult)
    (h : executeDockerCommand g args b.streamEvents clk.t1 = some sr)
    (hs : sr.success = false)
    (he : (executeDockerCommandAlt g args b.buffered clk.t2).success = false)
    (hy : (executeDockerCommandSync g args b.sync clk.t3).success = false) :
    executeDockerCommandRobust g args b clk =
      some (createResult ""
        ("All execution methods failed. Last error: " ++
          (executeDockerCommandSync g args b.sync clk.t3).stderr)
        (some 1) "all_failed" (commandString args) none false clk.t4) ∧
    robustTrace g args b clk =
      [streamingInvocation g args, bufferedInvocation g args,
        syncInvocation g args] := by
  constructor <;> simp [executeDockerCommandRobust, robustTrace, h, hs, he, hy]

/-- Every value the cascade resolves with is well formed. -/
theorem robust_wellFormed (g : Globals) (args : List String)
    (b : CascadeBehavior) (clk : Clock) (r : ExecResult)
    (h : executeDockerCommandRobust g args b clk = some r) :
    wellFormedResult r := by
  unfold executeDockerCommandRobust at h
  cases hsr : executeDockerCommand g args b.streamEvents clk.t1 with
  | none => rw [hsr] at h; exact absurd h (by simp)
  | some sr =>
      rw [hsr] at h
      by_cases hs : sr.success = true
      · simp only [hs, if_true, Option.some.injEq] at h
        exact h ▸ (executeDockerCommand_produced g args b.streamEvents clk.t1 sr hsr).1
      · simp only [Bool.not_eq_true] at hs
        simp only [hs, Bool.false_eq_true, if_false] at h
        by_cases he : (executeDockerCommandAlt g args b.buffered clk.t2).success = true
        · simp only [he, if_true, Option.some.injEq] at h
          subst h
          have hw := executeDockerCommandAlt_wellFormed g args b.buffered clk.t2
          exact ⟨fun _ => hw.1 he, hw.2.1, fun ht => hw.2.2 ht⟩
        · simp only [Bool.not_eq_true] at he
          simp only [he, Bool.false_eq_true, if_false] at h
          by_cases hy : (executeDockerCommandSync g args b.sync clk.t3).success = true
          · simp only [hy, if_true, Option.some.injEq] at h
            subst h
            have hw := executeDockerCommandSync_wellFormed g args b.sync clk.t3
            exact ⟨fun _ => hw.1 hy, hw.2.1, fun ht => hw.2.2 ht⟩
          · simp only [Bool.not_eq_true] at hy
            simp only [hy, Bool.false_eq_true, if_false, Option.some.injEq] at h
            subst h
            refine ⟨createResult_success_code _ _ _ _ _ _ _ _, ?_, ?_⟩ <;>
              simp [createResult]

/-! ## Concrete sample data (for closed instantiations) -/

/-- A concrete configuration as `config.json.example` describes. -/
def sampleConfig : Config :=
  { nginxHost := "localhost", nginxPort := "8080",
    projectDirectory := "/home/user/mcp-server-prototype" }

def sampleGlobals : Globals :=
  { config := sampleConfig, envProjectDir := none,
    env := [("PATH", "/usr/local/bin:/usr/bin")] }

def sampleArgs : List String := ["compose", "ps"]

def sampleClock : Clock := {}

/-- A run in which the spawned process writes a chunk and exits cleanly. -/
def okStreamEvents : List StreamEvent :=
  [.dataOut "NAME                STATUS\n", .close (some 0)]

/-- A run in which spawning fails (binary not found). -/
def enoentStreamEvents : List StreamEvent :=
  [.spawnErr "spawn docker ENOENT"]

def okBuffered : ExecBehavior := .ok "NAME                STATUS\n" ""

def failBuffered : ExecBehavior :=
  .fail { message := "Command failed: docker compose ps"
          stderr := some "permission denied while trying to connect"
          code := some 1 }

def okSync : SyncBehavior := .ok "NAME                STATUS\n"

def failSync : SyncBehavior :=
  .fail { message := "execSync ENOENT", stderr := none, status := none }

/-- All three strategies fail. -/
def allFailBehavior : CascadeBehavior :=
  { streamEvents := enoentStreamEvents, buffered := failBuffered,
    sync := failSync }

/-- Streaming succeeds at once. -/
def okStreamBehavior : CascadeBehavior :=
  { streamEvents := okStreamEvents, buffered := failBuffered,
    sync := failSync }

/-- Streaming fails, buffered succeeds. -/
def bufferedRescueBehavior : CascadeBehavior :=
  { streamEvents := enoentStreamEvents, buffered := okBuffered,
    sync := failSync }

/-- Streaming and buffered fail, synchronous succeeds. -/
def syncRescueBehavior : CascadeBehavior :=
  { streamEvents := enoentStreamEvents, buffered := failBuffered,
    sync := okSync }

/-- The streaming outcome of `okStreamEvents`. -/
def okStreamResult : ExecResult :=
  createResult "NAME                STATUS\n" "" (some 0) "spawn"
    (commandString sampleArgs) none false 0

/-- The streaming outcome of `enoentStreamEvents`. -/
def enoentStreamResult : ExecResult :=
  createResult "" "spawn docker ENOENT" (some 1) "spawn"
    (commandString sampleArgs) (some "spawn docker ENOENT") false 0

/-! ## Further helper lemmas -/

theorem streamRunFrom_append (cmd : String) (ts : Nat) :
    ∀ (l1 l2 : List StreamEvent) (st : StreamState),
      streamRunFrom cmd ts st (l1 ++ l2) =
        streamRunFrom cmd ts (streamRunFrom cmd ts st l1) l2 := by
  intro l1
  induction l1 with
  | nil => intro l2 st; rfl
  | cons e es ih => intro l2 st; rw [List.cons_append, streamRunFrom, streamRunFrom, ih]

/-- When the timer fires before any terminating event, the streaming run
kills the process and resolves the synthetic timed-out result, whatever
events follow. -/
theorem streamRun_timeout_result (g : Globals) (args : List String) (ts : Nat)
    (pre rest : List StreamEvent)
    (hpre : ∀ e ∈ pre, e.isTerminator = false) :
    (streamRun g args (pre ++ .timerFire :: rest) ts).killed = true ∧
    (streamRun g args (pre ++ .timerFire :: rest) ts).resolved =
      some (createResult "" "Command timed out after 15 seconds" (some 124)
        "spawn" (commandString args) none true ts) := by
  have hd := streamRunFrom_data (commandString args) ts pre {} hpre
  have h1 : (streamRunFrom (commandString args) ts {} pre).timerArmed = true := hd.1
  have h2 : (streamRunFrom (commandString args) ts {} pre).resolved = none := hd.2.1
  have happ : streamRun g args (pre ++ .timerFire :: rest) ts =
      streamRunFrom (commandString args) ts
        (streamStep (commandString args) ts
          (streamRunFrom (commandString args) ts {} pre) .timerFire) rest := by
    simp only [streamRun, streamRunFrom_append, streamRunFrom]
  have hkill : (streamStep (commandString args) ts
      (streamRunFrom (commandString args) ts {} pre) .timerFire).killed = true := by
    simp [streamStep, h1, resolveWith, h2]
  have hres : (streamStep (commandString args) ts
      (streamRunFrom (commandString args) ts {} pre) .timerFire).resolved =
      some (createResult "" "Command timed out after 15 seconds" (some 124)
        "spawn" (commandString args) none true ts) := by
    simp [streamStep, h1, resolveWith, h2]
  rw [happ]
  exact ⟨streamRunFrom_killed_mono _ _ rest _ hkill,
    streamRunFrom_resolved_mono _ _ rest _ _ hres⟩

/-- Invariant of the cascade's invocation trace: every invocation carries
the original argument vector, the engine-wide working directory,
environment and timeout. -/
theorem robustTrace_invariant (g : Globals) (args : List String)
    (b : CascadeBehavior) (clk : Clock) :
    ∀ inv ∈ robustTrace g args b clk,
      inv.argv = args ∧ inv.cwd = PROJECT_DIR g ∧ inv.env = DOCKER_ENV g ∧
      inv.timeoutMs = TIMEOUT := by
  intro inv hinv
  unfold robustTrace at hinv
  cases hsr : executeDockerCommand g args b.streamEvents clk.t1 with
  | none =>
      rw [hsr] at hinv
      simp only [List.mem_singleton] at hinv
      subst hinv; exact ⟨rfl, rfl, rfl, rfl⟩
  | some sr =>
      rw [hsr] at hinv
      by_cases h1 : sr.success = true
      · simp only [h1, if_true, List.mem_singleton] at hinv
        subst hinv; exact ⟨rfl, rfl, rfl, rfl⟩
      · simp only [Bool.not_eq_true] at h1
        simp only [h1, Bool.false_eq_true, if_false] at hinv
        by_cases h2 : (executeDockerCommandAlt g args b.buffered clk.t2).success = true
        · simp only [h2, if_true, List.mem_cons, List.mem_singleton,
            List.not_mem_nil, or_false] at hinv
          rcases hinv with hinv | hinv <;>
            (subst hinv; exact ⟨rfl, rfl, rfl, rfl⟩)
        · simp only [Bool.not_eq_true] at h2
          simp only [h2, Bool.false_eq_true, if_false, List.mem_cons,
            List.mem_singleton, List.not_mem_nil, or_false] at hinv
          rcases hinv with hinv | hinv | hinv <;>
            (subst hinv; exact ⟨rfl, rfl, rfl, rfl⟩)

theorem executeDockerCommandAlt_debug_defaults (g : Globals)
    (args : List String) (b : ExecBehavior) (ts : Nat) :
    (executeDockerCommandAlt g args b ts).debug.fallbackUsed = false ∧
    (executeDockerCommandAlt g args b ts).debug.primaryError = none ∧
    (executeDockerCommandAlt g args b ts).debug.secondaryError = none := by
  cases b <;> exact ⟨rfl, rfl, rfl⟩

theorem executeDockerCommandSync_debug_defaults (g : Globals)
    (args : List String) (b : SyncBehavior) (ts : Nat) :
    (executeDockerCommandSync g args b ts).debug.fallbackUsed = false ∧
    (executeDockerCommandSync g args b ts).debug.primaryError = none ∧
    (executeDockerCommandSync g args b ts).debug.secondaryError = none := by
  cases b <;> exact ⟨rfl, rfl, rfl⟩

theorem executeDockerCommandSync_method (g : Globals) (args : List String)
    (b : SyncBehavior) (ts : Nat) :
    (executeDockerCommandSync g args b ts).debug.method = "execSync" := by
  cases b <;> rfl

/-! ## Claims -/

/-- C1: for every argument vector and every environment behaviour in which
the streaming promise settles (some terminating event — a close, a spawn
error as when the binary or working directory does not exist, or the
timeout timer firing, as it must when the timeout is very low),
`executeDockerCommandRobust` resolves to a well-formed result — it never
propagates an exception to its caller — and each of the three strategy
functions likewise resolves a well-formed outcome on every exit path. -/
theorem C1_cascade_never_throws (g : Globals) (args : List String)
    (b : CascadeBehavior) (clk : Clock)
    (hterm : b.streamEvents.any StreamEvent.isTerminator = true) :
    (∃ r, executeDockerCommandRobust g args b clk = some r ∧ wellFormedResult r) ∧
    (∃ sr, executeDockerCommand g args b.streamEvents clk.t1 = some sr ∧
      wellFormedResult sr) ∧
    wellFormedResult (executeDockerCommandAlt g args b.buffered clk.t2) ∧
    wellFormedResult (executeDockerCommandSync g args b.sync clk.t3) := by
  have hsome : ((streamRunFrom (commandString args) clk.t1 {} b.streamEvents).resolved).isSome
      = true :=
    streamRunFrom_resolves _ _ b.streamEvents {} rfl rfl hterm
  obtain ⟨sr, hsr⟩ := Option.isSome_iff_exists.mp hsome
  have hsr' : executeDockerCommand g args b.streamEvents clk.t1 = some sr := hsr
  refine ⟨?_, ⟨sr, hsr',
      (executeDockerCommand_produced g args b.streamEvents clk.t1 sr hsr').1⟩,
    executeDockerCommandAlt_wellFormed g args b.buffered clk.t2,
    executeDockerCommandSync_wellFormed g args b.sync clk.t3⟩
  have hres : (executeDockerCommandRobust g args b clk).isSome = true := by
    unfold executeDockerCommandRobust
    rw [hsr']
    by_cases h1 : sr.success = true
    · simp [h1]
    · simp only [Bool.not_eq_true] at h1
      by_cases h2 : (executeDockerCommandAlt g args b.buffered clk.t2).success = true
      · simp [h1, h2]
      · simp only [Bool.not_eq_true] at h2
        by_cases h3 : (executeDockerCommandSync g args b.sync clk.t3).success = true
        · simp [h1, h2, h3]
        · simp only [Bool.not_eq_true] at h3
          simp [h1, h2, h3]
  obtain ⟨r, hr⟩ := Option.isSome_iff_exists.mp hres
  exact ⟨r, hr, robust_wellFormed g args b clk r hr⟩

/-- C1 witness: the behaviour in which the binary does not exist (spawn
error) and both fallbacks throw as well. -/
theorem C1_witness :
    allFailBehavior.streamEvents.any StreamEvent.isTerminator = true ∧
    (∃ r, executeDockerCommandRobust sampleGlobals sampleArgs allFailBehavior
      sampleClock = some r ∧ wellFormedResult r) :=
  ⟨rfl, (C1_cascade_never_throws sampleGlobals sampleArgs allFailBehavior
    sampleClock rfl).1⟩

/-- C2: if the streaming strategy's attempt succeeds, the cascade returns
that streaming outcome unchanged, the buffered and synchronous strategies
are never invoked (the invocation trace holds the single `spawn`
invocation), `fallbackUsed` is false and `priorErrors` is empty. -/
theorem C2_first_success_short_circuit (g : Globals) (args : List String)
    (b : CascadeBehavior) (clk : Clock) (sr : ExecResult)
    (h : executeDockerCommand g args b.streamEvents clk.t1 = some sr)
    (hs : sr.success = true) :
    executeDockerCommandRobust g args b clk = some sr ∧
    robustTrace g args b clk = [streamingInvocation g args] ∧
    (∀ inv ∈ robustTrace g args b clk,
      inv.method ≠ "exec" ∧ inv.method ≠ "execSync") ∧
    sr.debug.fallbackUsed = false ∧
    priorErrors sr = [] := by
  obtain ⟨h1, h2⟩ := robust_streaming_case g args b clk sr h hs
  have hp := executeDockerCommand_produced g args b.streamEvents clk.t1 sr h
  refine ⟨h1, h2, ?_, hp.2.2.1, ?_⟩
  · intro inv hinv
    rw [h2] at hinv
    simp only [List.mem_singleton] at hinv
    subst hinv
    refine ⟨?_, ?_⟩ <;> simp [streamingInvocation]
  · simp [priorErrors, hp.2.2.2.1, hp.2.2.2.2]

/-- C2 witness: a run whose process writes one chunk and exits 0. -/
theorem C2_witness :
    executeDockerCommandRobust sampleGlobals sampleArgs okStreamBehavior
      sampleClock = some okStreamResult ∧
    robustTrace sampleGlobals sampleArgs okStreamBehavior sampleClock =
      [streamingInvocation sampleGlobals sampleArgs] ∧
    priorErrors okStreamResult = [] := by
  have h := C2_first_success_short_circuit sampleGlobals sampleArgs
    okStreamBehavior sampleClock okStreamResult (by decide) (by decide)
  exact ⟨h.1, h.2.1, h.2.2.2.2⟩

/-- C3 counterexample: when all three strategies fail, the cascade's
result has empty `priorErrors` although the streaming strategy did not
succeed — refuting "`priorErrors` is empty if and only if the STREAMING
strategy succeeded" as stated. -/
theorem C3_counterexample :
    (executeDockerCommandRobust sampleGlobals sampleArgs allFailBehavior
      sampleClock).map (fun r => (priorErrors r, r.debug.method)) =
      some ([], "all_failed") ∧
    (executeDockerCommand sampleGlobals sampleArgs
      allFailBehavior.streamEvents sampleClock.t1).map
      (fun r => r.success) = some false := by
  decide

/-- C3 (amended): `priorErrors` has length equal to the number of
strategies attempted before the successful one, and is empty iff the
streaming strategy succeeded **or all three strategies failed** (the
synthetic all-failed result carries no `priorErrors`). When streaming
fails and buffered succeeds, `fallbackUsed` is true and `priorErrors` is
exactly the streaming failure's stderr; when only synchronous succeeds it
is the streaming and buffered failure texts in attempt order. -/
theorem C3_amended_priorErrors (g : Globals) (args : List String)
    (b : CascadeBehavior) (clk : Clock) (sr : ExecResult)
    (h : executeDockerCommand g args b.streamEvents clk.t1 = some sr) :
    ∃ r, executeDockerCommandRobust g args b clk = some r ∧
      priorErrors r =
        (if sr.success then []
         else if (executeDockerCommandAlt g args b.buffered clk.t2).success then
           [sr.stderr]
         else if (executeDockerCommandSync g args b.sync clk.t3).success then
           [sr.stderr, (executeDockerCommandAlt g args b.buffered clk.t2).stderr]
         else []) ∧
      r.debug.fallbackUsed =
        (!sr.success && ((executeDockerCommandAlt g args b.buffered clk.t2).success
          || (executeDockerCommandSync g args b.sync clk.t3).success)) := by
  have hp := executeDockerCommand_produced g args b.streamEvents clk.t1 sr h
  by_cases h1 : sr.success = true
  · obtain ⟨hr, -⟩ := robust_streaming_case g args b clk sr h h1
    exact ⟨sr, hr,
      by simp [h1, priorErrors, hp.2.2.2.1, hp.2.2.2.2],
      by simp [h1, hp.2.2.1]⟩
  · simp only [Bool.not_eq_true] at h1
    by_cases h2 : (executeDockerCommandAlt g args b.buffered clk.t2).success = true
    · obtain ⟨hr, -⟩ := robust_buffered_case g args b clk sr h h1 h2
      have hd := executeDockerCommandAlt_debug_defaults g args b.buffered clk.t2
      refine ⟨_, hr, ?_, ?_⟩
      · simp [h1, h2, priorErrors, hd.2.2]
      · simp [h1, h2]
    · simp only [Bool.not_eq_true] at h2
      by_cases h3 : (executeDockerCommandSync g args b.sync clk.t3).success = true
      · obtain ⟨hr, -⟩ := robust_sync_case g args b clk sr h h1 h2 h3
        refine ⟨_, hr, ?_, ?_⟩
        · simp [h1, h2, h3, priorErrors]
        · simp [h1, h2, h3]
      · simp only [Bool.not_eq_true] at h3
        obtain ⟨hr, -⟩ := robust_allfailed_case g args b clk sr h h1 h2 h3
        refine ⟨_, hr, ?_, ?_⟩
        · simp [h1, h2, h3, priorErrors, createResult]
        · simp [h1, h2, h3, createResult]

/-- C3 witness: streaming fails with a spawn error, buffered succeeds —
`priorErrors` holds exactly the streaming failure message and
`fallbackUsed` is set. -/
theorem C3_witness :
    (executeDockerCommandRobust sampleGlobals sampleArgs
      bufferedRescueBehavior sampleClock).map
      (fun r => (priorErrors r, r.debug.fallbackUsed)) =
      some (["spawn docker ENOENT"], true) := by
  obtain ⟨r, hr, hperr, hfb⟩ := C3_amended_priorErrors sampleGlobals sampleArgs
    bufferedRescueBehavior sampleClock enoentStreamResult (by decide)
  rw [hr, Option.map_some', hperr, hfb]
  decide

/-- C4: if all three strategies fail, the cascade returns a distinct,
synthetically constructed failure outcome (method tag `all_failed`, not
the synchronous strategy's `execSync` outcome) with exit code 1 and empty
stdout, whose stderr starts with the literal
"All execution methods failed." and embeds the synchronous strategy's
failure text. -/
theorem C4_total_exhaustion (g : Globals) (args : List String)
    (b : CascadeBehavior) (clk : Clock) (sr : ExecResult)
    (h : executeDockerCommand g args b.streamEvents clk.t1 = some sr)
    (hs : sr.success = false)
    (he : (executeDockerCommandAlt g args b.buffered clk.t2).success = false)
    (hy : (executeDockerCommandSync g args b.sync clk.t3).success = false) :
    ∃ r, executeDockerCommandRobust g args b clk = some r ∧
      r.code = 1 ∧ r.stdout = "" ∧ r.success = false ∧
      r.debug.method = "all_failed" ∧
      r.debug.method ≠ (executeDockerCommandSync g args b.sync clk.t3).debug.method ∧
      r.stderr = "All execution methods failed. Last error: " ++
        (executeDockerCommandSync g args b.sync clk.t3).stderr ∧
      r.stderr = "All execution methods failed." ++
        (" Last error: " ++ (executeDockerCommandSync g args b.sync clk.t3).stderr) := by
  obtain ⟨hr, -⟩ := robust_allfailed_case g args b clk sr h hs he hy
  refine ⟨_, hr, ?_, rfl, ?_, rfl, ?_, rfl, ?_⟩
  · simp [createResult, jsIntOr]
  · simp [createResult]
  · simp only [executeDockerCommandSync_method g args b.sync clk.t3, createResult]
    decide
  · show "All execution methods failed. Last error: " ++
      (executeDockerCommandSync g args b.sync clk.t3).stderr = _
    have hlit : ("All execution methods failed. Last error: " : String) =
        "All execution methods failed." ++ " Last error: " := by decide
    rw [hlit, String.append_assoc]

/-- C4 witness: the all-fail behaviour; the synchronous failure text
(`execSync ENOENT`) appears in the synthetic message. -/
theorem C4_witness :
    (executeDockerCommandRobust sampleGlobals sampleArgs allFailBehavior
      sampleClock).map (fun r => (r.stdout, r.code, r.debug.method, r.stderr)) =
      some ("", 1, "all_failed",
        "All execution methods failed. Last error: execSync ENOENT") := by
  obtain ⟨r, hr, hc, ho, hsu, hm, -, hst, -⟩ := C4_total_exhaustion sampleGlobals
    sampleArgs allFailBehavior sampleClock enoentStreamResult
    (by decide) (by decide) (by decide) (by decide)
  rw [hr, Option.map_some', ho, hc, hm, hst]
  decide

/-- C5: in the streaming strategy, when the armed timer fires before any
process-termination event, the process is sent SIGTERM and the promise
resolves with the synthetic timed-out result (`timedOut` flag set, exit
code 124, stderr replaced by the synthetic message); and on every exit
path the timer is no longer pending at the instant of resolution (the
close/error handlers clear it before resolving; a fired timer is spent),
so a dangling timer never fires after the outcome has resolved. -/
theorem C5_timeout_semantics (g : Globals) (args : List String) (ts : Nat) :
    (∀ pre rest : List StreamEvent, (∀ e ∈ pre, e.isTerminator = false) →
      (streamRun g args (pre ++ .timerFire :: rest) ts).killed = true ∧
      (streamRun g args (pre ++ .timerFire :: rest) ts).resolved =
        some (createResult "" "Command timed out after 15 seconds" (some 124)
          "spawn" (commandString args) none true ts)) ∧
    (∀ events : List StreamEvent,
      ((streamRun g args events ts).resolved).isSome = true →
      (streamRun g args events ts).armedAtResolve = some false ∧
      (streamRun g args events ts).timerArmed = false) := by
  constructor
  · intro pre rest hpre
    exact streamRun_timeout_result g args ts pre rest hpre
  · intro events h
    exact streamRunFrom_timerInv (commandString args) ts events {}
      (by intro h'; simp at h') h

/-- C5 witness: output arrives, then the timer fires: SIGTERM is sent and
the outcome is the synthetic timed-out result. -/
theorem C5_witness :
    (streamRun sampleGlobals sampleArgs
      [.dataOut "partial output", .timerFire] 0).killed = true ∧
    (streamRun sampleGlobals sampleArgs
      [.dataOut "partial output", .timerFire] 0).resolved =
      some (createResult "" "Command timed out after 15 seconds" (some 124)
        "spawn" (commandString sampleArgs) none true 0) :=
  (C5_timeout_semantics sampleGlobals sampleArgs 0).1
    [.dataOut "partial output"] [] (by decide)

/-- C6: every strategy invocation in the cascade carries the same request:
the identical argument vector, working directory (`PROJECT_DIR`),
environment (`DOCKER_ENV`) and timeout (`TIMEOUT`); an earlier strategy's
failure is purely informational and alters nothing in the later
invocations. -/
theorem C6_same_request (g : Globals) (args : List String)
    (b : CascadeBehavior) (clk : Clock) :
    ∀ inv ∈ robustTrace g args b clk,
      inv.argv = args ∧ inv.cwd = PROJECT_DIR g ∧ inv.env = DOCKER_ENV g ∧
      inv.timeoutMs = TIMEOUT :=
  robustTrace_invariant g args b clk

/-- C6 witness: in the all-fail cascade, the synchronous invocation (the
third and last) still carries the original argument vector, working
directory, environment and timeout. -/
theorem C6_witness :
    syncInvocation sampleGlobals sampleArgs ∈
      robustTrace sampleGlobals sampleArgs allFailBehavior sampleClock ∧
    (syncInvocation sampleGlobals sampleArgs).argv = sampleArgs ∧
    (syncInvocation sampleGlobals sampleArgs).cwd = PROJECT_DIR sampleGlobals ∧
    (syncInvocation sampleGlobals sampleArgs).env = DOCKER_ENV sampleGlobals ∧
    (syncInvocation sampleGlobals sampleArgs).timeoutMs = TIMEOUT :=
  ⟨by decide, C6_same_request sampleGlobals sampleArgs allFailBehavior
    sampleClock (syncInvocation sampleGlobals sampleArgs) (by decide)⟩

/-- C7 counterexample: a `close` event carrying a `null` exit code (the
process was terminated by a signal) yields a stored `exitCode` of `0`
(via `code || 0`) while `succeeded` is `false` (via the strict
`code === 0`), refuting "succeeded is true iff the exitCode field equals
0, including for a null/absent raw code" at this input. -/
theorem C7_counterexample :
    (executeDockerCommand sampleGlobals sampleArgs [.close none]
      sampleClock.t1).map (fun r => (r.code, r.success)) =
      some (0, false) := by
  decide

/-- C7 (amended): `succeeded` is derived from the **raw** exit code being
exactly 0, and `succeeded = true` implies the stored `exitCode` field is
0 — for the cascade result and each strategy outcome — but the converse
fails: a null raw code is stored as `exitCode = 0` with
`succeeded = false`. -/
theorem C7_amended_success_code (g : Globals) (args : List String)
    (b : CascadeBehavior) (clk : Clock) :
    (∀ r, executeDockerCommandRobust g args b clk = some r →
      r.success = true → r.code = 0) ∧
    (∀ r, executeDockerCommand g args b.streamEvents clk.t1 = some r →
      r.success = true → r.code = 0) ∧
    ((executeDockerCommandAlt g args b.buffered clk.t2).success = true →
      (executeDockerCommandAlt g args b.buffered clk.t2).code = 0) ∧
    ((executeDockerCommandSync g args b.sync clk.t3).success = true →
      (executeDockerCommandSync g args b.sync clk.t3).code = 0) := by
  refine ⟨?_, ?_, (executeDockerCommandAlt_wellFormed g args b.buffered clk.t2).1,
    (executeDockerCommandSync_wellFormed g args b.sync clk.t3).1⟩
  · intro r hr
    exact (robust_wellFormed g args b clk r hr).1
  · intro r hr
    exact (executeDockerCommand_produced g args b.streamEvents clk.t1 r hr).1.1

/-- C7 witness: a clean exit-0 run is `succeeded` with stored exit code 0. -/
theorem C7_witness :
    okStreamResult.success = true ∧ okStreamResult.code = 0 :=
  ⟨by decide, (C7_amended_success_code sampleGlobals sampleArgs
    okStreamBehavior sampleClock).2.1 okStreamResult (by decide) (by decide)⟩

/-- C8: when the buffered strategy's call rejects with a failure that is a
non-zero exit or the call's own timeout kill (raw code never 0), the
outcome is a failure that recovers any non-empty partial stdout/stderr the
error object carries, uses the error's message as stderr when no partial
stderr is available, and takes `exitCode` from the error's reported code,
or 1 when the code is unavailable. -/
theorem C8_buffered_failure_recovery (g : Globals) (args : List String)
    (e : ExecError) (ts : Nat) (hc : e.code ≠ some 0) :
    (executeDockerCommandAlt g args (.fail e) ts).success = false ∧
    (∀ s, e.stdout = some s → s ≠ "" →
      (executeDockerCommandAlt g args (.fail e) ts).stdout = s) ∧
    ((e.stdout = none ∨ e.stdout = some "") →
      (executeDockerCommandAlt g args (.fail e) ts).stdout = "") ∧
    (∀ s, e.stderr = some s → s ≠ "" →
      (executeDockerCommandAlt g args (.fail e) ts).stderr = s) ∧
    ((e.stderr = none ∨ e.stderr = some "") →
      (executeDockerCommandAlt g args (.fail e) ts).stderr = e.message) ∧
    (∀ n, e.code = some n →
      (executeDockerCommandAlt g args (.fail e) ts).code = n) ∧
    (e.code = none → (executeDockerCommandAlt g args (.fail e) ts).code = 1) := by
  refine ⟨?_, ?_, ?_, ?_, ?_, ?_, ?_⟩
  · have hnz := jsIntOr_default_one_ne_zero e.code
    simp [executeDockerCommandAlt, createResult, hnz]
  · intro s hs hne
    simp [executeDockerCommandAlt, createResult, jsStrOr, hs, hne]
  · intro hs
    rcases hs with hs | hs <;>
      simp [executeDockerCommandAlt, createResult, jsStrOr, hs]
  · intro s hs hne
    simp [executeDockerCommandAlt, createResult, jsStrOr, hs, hne]
  · intro hs
    rcases hs with hs | hs <;>
      simp [executeDockerCommandAlt, createResult, jsStrOr, hs]
  · intro n hn
    have hnz : n ≠ 0 := by rintro rfl; exact hc hn
    simp [executeDockerCommandAlt, createResult, jsIntOr, hn, hnz]
  · intro hn
    simp [executeDockerCommandAlt, createResult, jsIntOr, hn]

/-- An `exec` failure whose exit code is unavailable (e.g. the call's own
timeout killed the process), carrying partial stdout and no stderr. -/
def killedExecError : ExecError :=
  { message := "Command failed"
    stdout := some "partial out"
    stderr := none
    code := none }

/-- C8 witness: a timeout-style failure (code unavailable) with partial
stdout and no partial stderr. -/
theorem C8_witness :
    (executeDockerCommandAlt sampleGlobals sampleArgs
      (.fail killedExecError) 0).stdout = "partial out" ∧
    (executeDockerCommandAlt sampleGlobals sampleArgs
      (.fail killedExecError) 0).stderr = "Command failed" ∧
    (executeDockerCommandAlt sampleGlobals sampleArgs
      (.fail killedExecError) 0).code = 1 := by
  have h := C8_buffered_failure_recovery sampleGlobals sampleArgs
    killedExecError 0 (by decide)
  exact ⟨h.2.1 "partial out" rfl (by decide), h.2.2.2.2.1 (Or.inl rfl),
    h.2.2.2.2.2.2 rfl⟩

/-- Modelled from the spec: the settings object of §6 — "target host,
target port, working directory path, timeout-in-milliseconds (must be a
positive integer; default 15000 if unset)" — which the spec says supplies
the engine's per-command timeout.  The source's `config.json` object
carries no command-timeout entry and its engine uses the constant
`TIMEOUT` instead; this definition follows the spec's words, for
comparison with the code's behaviour. -/
structure SpecSettings where
  host : String
  port : String
  workingDirectory : String
  timeoutMillis : Option Nat := none
  deriving Repr, DecidableEq

/-- Modelled from the spec: the per-command timeout the spec prescribes —
the configured value when set, 15000 only as a default when unset. -/
def specConfiguredTimeout (s : SpecSettings) : Nat :=
  s.timeoutMillis.getD 15000

/-- A settings object that sets the spec's timeout field to 1 ms. -/
def oneMsSettings : SpecSettings :=
  { host := "localhost"
    port := "8080"
    workingDirectory := "/home/user/mcp-server-prototype"
    timeoutMillis := some 1 }

/-- C9 counterexample: for a settings object supplying a 1 ms timeout, the
spec-prescribed timeout is 1, but the engine's per-command timeout — the
one every strategy invocation of a concrete cascade run uses — is the
hard-coded constant 15000, not a value taken from the settings object. -/
theorem C9_counterexample :
    specConfiguredTimeout oneMsSettings = 1 ∧
    TIMEOUT = 15000 ∧
    (robustTrace sampleGlobals sampleArgs allFailBehavior sampleClock).map
      Invocation.timeoutMs = [15000, 15000, 15000] ∧
    (streamingInvocation sampleGlobals sampleArgs).timeoutMs ≠
      specConfiguredTimeout oneMsSettings := by
  decide

/-- C9 (amended): the engine's per-command timeout is the hard-coded
constant 15000 ms; every strategy invocation of every cascade run uses it,
irrespective of the configuration object, which carries no command-timeout
setting. -/
theorem C9_amended_timeout_constant (g : Globals) (args : List String)
    (b : CascadeBehavior) (clk : Clock) :
    TIMEOUT = 15000 ∧
    ∀ inv ∈ robustTrace g args b clk, inv.timeoutMs = 15000 := by
  refine ⟨rfl, ?_⟩
  intro inv hinv
  exact (robustTrace_invariant g args b clk inv hinv).2.2.2

/-- C9 witness: the buffered invocation of a concrete cascade run uses the
15000 ms timeout. -/
theorem C9_witness :
    bufferedInvocation sampleGlobals sampleArgs ∈
      robustTrace sampleGlobals sampleArgs allFailBehavior sampleClock ∧
    (bufferedInvocation sampleGlobals sampleArgs).timeoutMs = 15000 :=
  ⟨by decide, (C9_amended_timeout_constant sampleGlobals sampleArgs
    allFailBehavior sampleClock).2 (bufferedInvocation sampleGlobals sampleArgs)
    (by decide)⟩

/-- C10: whenever the timeout timer fires before the process closes, the
resolved outcome's stdout is the empty string — the stdout bytes
accumulated in the buffer before the timeout are discarded rather than
returned alongside the synthetic timeout stderr (the buffer itself holds
exactly the bytes delivered before the timer fired). -/
theorem C10_timeout_discards_stdout (g : Globals) (args : List String)
    (ts : Nat) (pre rest : List StreamEvent)
    (hpre : ∀ e ∈ pre, e.isTerminator = false) :
    ∃ r, (streamRun g args (pre ++ .timerFire :: rest) ts).resolved = some r ∧
      r.stdout = "" ∧ r.debug.timeout = true ∧
      r.stderr = "Command timed out after 15 seconds" := by
  obtain ⟨-, hres⟩ := streamRun_timeout_result g args ts pre rest hpre
  exact ⟨_, hres, rfl, rfl, rfl⟩

/-- C10 witness: 14 bytes of stdout arrive, then the timer fires; the
buffer holds them but the resolved outcome's stdout is empty. -/
theorem C10_witness :
    (streamRun sampleGlobals sampleArgs
      [.dataOut "NAME    STATUS", .timerFire] 0).sout = "NAME    STATUS" ∧
    (streamRun sampleGlobals sampleArgs
      [.dataOut "NAME    STATUS", .timerFire] 0).resolved.map
      (fun r => (r.stdout, r.debug.timeout)) = some ("", true) := by
  obtain ⟨r, hres, ho, ht, -⟩ := C10_timeout_discards_stdout sampleGlobals
    sampleArgs 0 [.dataOut "NAME    STATUS"] [] (by decide)
  simp only [List.cons_append, List.nil_append] at hres
  refine ⟨by decide, ?_⟩
  rw [hres, Option.map_some', ho, ht]

end NginxMcp
